import Mathlib

/-!
Verification of the review-analysis and analytics-aggregation pipeline of the
AI feedback system (star-rated customer reviews, enriched with generated
response / summary / actions, plus aggregate analytics).

The repository ships the Next.js frontend (`frontend/pages/index.tsx`,
`frontend/components/StarRating.tsx`, the admin dashboard page); the FastAPI
backend (review processor, fallback generator, AI capability adapter,
analytics aggregator, insights synthesizer) is described by the specification
(§4.1–§4.5, §6–§8) and is modelled here from it.  Frontend logic
(`handleSubmit`, `StarRating`, `filteredReviews`, the response interfaces) is
embedded directly from the TypeScript source.
-/

namespace Feedback

/-- A stored review record (spec §3; admin `Review` interface in the admin
dashboard page, fields `id, rating, review_text, user_response, ai_summary,
recommended_actions, created_at`). -/
structure Review where
  id : Nat
  rating : Int
  review_text : String
  user_response : String
  ai_summary : String
  recommended_actions : String
  created_at : String
deriving DecidableEq

/-- The three enrichment fields produced for one review (spec §4.1/§4.2). -/
structure GeneratedFields where
  user_response : String
  ai_summary : String
  recommended_actions : String
deriving DecidableEq

/-- Modelled from the spec: rounding used by the analytics aggregator
(spec §4.4 writes `round(...)`; the backend source is absent from the
repository).  Round to the nearest integer, halves up: `⌊x + 1/2⌋`.  No
value appearing in the claims is a half-integer tie, so the tie-breaking
choice is immaterial to every theorem below. -/
def roundRat (x : ℚ) : ℤ := ⌊x + 1 / 2⌋

/-- Modelled from the spec: the response tier selected by the fallback
generator (spec §4.1: 5 → exceptional, 4 → positive, 3 → neutral/mixed,
2 → below expectations, 1 → poor; the backend source is absent). -/
def tierLabel (rating : Int) : String :=
  if rating ≥ 5 then "exceptional"
  else if rating = 4 then "positive"
  else if rating = 3 then "neutral"
  else if rating = 2 then "below expectations"
  else "poor"

/-- Modelled from the spec: the truncated excerpt of the review text used in
the fallback summary, or a fixed phrase when the text is empty (spec §4.1). -/
def excerpt (review_text : String) : String :=
  if review_text.isEmpty then "No additional comments"
  else review_text.take 100

/-- Modelled from the spec: the fixed per-tier `user_response` template of the
fallback generator (spec §4.1; the backend source is absent). -/
def fallbackUserResponse (rating : Int) : String :=
  if rating ≥ 5 then
    "Thank you so much for your exceptional rating! We are thrilled that you had a great experience."
  else if rating = 4 then
    "Thank you for your positive feedback! We are glad you enjoyed your experience."
  else if rating = 3 then
    "Thank you for sharing your feedback. We appreciate your honest thoughts and will work to improve."
  else if rating = 2 then
    "We regret that your experience was below expectations. We will work hard to do better."
  else
    "We sincerely apologize for your poor experience. We are committed to improving and will address your concerns."

/-- Modelled from the spec: the per-tier `recommended_actions` template of the
fallback generator (spec §4.1; the backend source is absent). -/
def fallbackActions (rating : Int) : String :=
  if rating ≥ 4 then "No action needed; consider requesting a testimonial."
  else if rating = 3 then "Review the feedback for improvement opportunities; monitor for recurring themes."
  else "Escalate to manager; follow up within 24h."

/-- Modelled from the spec: `generate_fallback(rating, review_text)`, the
deterministic rule-based generator (spec §4.1; the backend source is absent).
Pure and total; every field is a non-empty templated string. -/
def generate_fallback (rating : Int) (review_text : String) : GeneratedFields :=
  { user_response := fallbackUserResponse rating
    ai_summary :=
      "Rating " ++ toString rating ++ "/5 (" ++ tierLabel rating ++ "): " ++ excerpt review_text
    recommended_actions := fallbackActions rating }

/-- Rating histogram, always all five keys present (spec §4.4; admin
`Analytics` interface fields `rating_1 .. rating_5`). -/
structure RatingDistribution where
  rating_1 : Nat
  rating_2 : Nat
  rating_3 : Nat
  rating_4 : Nat
  rating_5 : Nat
deriving DecidableEq

/-- Three-bucket sentiment split with independent percentages (spec §4.4;
admin `Analytics` interface field `sentiment_analysis`). -/
structure SentimentAnalysis where
  positive : Nat
  positive_percentage : ℤ
  neutral : Nat
  neutral_percentage : ℤ
  negative : Nat
  negative_percentage : ℤ
deriving DecidableEq

/-- The derived analytics view (spec §3 `AnalyticsSnapshot`, §6 analytics
endpoint shape; admin `Analytics` interface). -/
structure AnalyticsSnapshot where
  total_reviews : Nat
  average_rating : ℚ
  rating_distribution : RatingDistribution
  sentiment_analysis : SentimentAnalysis
deriving DecidableEq

/-- Number of stored reviews whose rating equals `k`. -/
def countRating (reviews : List Review) (k : Int) : Nat :=
  (reviews.filter (fun r => r.rating == k)).length

/-- Negative sentiment bucket: ratings in `{1, 2}` (spec §4.4). -/
def negativeCount (reviews : List Review) : Nat :=
  (reviews.filter (fun r => r.rating == 1 || r.rating == 2)).length

/-- Neutral sentiment bucket: rating `3` (spec §4.4). -/
def neutralCount (reviews : List Review) : Nat :=
  (reviews.filter (fun r => r.rating == 3)).length

/-- Positive sentiment bucket: ratings in `{4, 5}` (spec §4.4). -/
def positiveCount (reviews : List Review) : Nat :=
  (reviews.filter (fun r => r.rating == 4 || r.rating == 5)).length

/-- Modelled from the spec: per-bucket sentiment percentage,
`round(bucket_count / total * 100)` when `total > 0`, else `0`
(spec §4.4; the backend source is absent). -/
def sentimentPct (bucket total : Nat) : ℤ :=
  if total = 0 then 0 else roundRat ((bucket : ℚ) * 100 / (total : ℚ))

/-- Sum of all stored ratings. -/
def sumRatings (reviews : List Review) : Int :=
  (reviews.map (fun r => r.rating)).sum

/-- Modelled from the spec: `compute_analytics(reviews)`, the analytics
aggregator (spec §4.4; the backend source is absent).  `total = len(reviews)`;
`average_rating = 0` if empty, else `round(sum/total, 1)`; zero-filled
histogram; independent per-bucket sentiment percentages. -/
def compute_analytics (reviews : List Review) : AnalyticsSnapshot :=
  let total := reviews.length
  { total_reviews := total
    average_rating :=
      if total = 0 then 0
      else (roundRat ((sumRatings reviews : ℚ) / (total : ℚ) * 10) : ℚ) / 10
    rating_distribution :=
      { rating_1 := countRating reviews 1
        rating_2 := countRating reviews 2
        rating_3 := countRating reviews 3
        rating_4 := countRating reviews 4
        rating_5 := countRating reviews 5 }
    sentiment_analysis :=
      { positive := positiveCount reviews
        positive_percentage := sentimentPct (positiveCount reviews) total
        neutral := neutralCount reviews
        neutral_percentage := sentimentPct (neutralCount reviews) total
        negative := negativeCount reviews
        negative_percentage := sentimentPct (negativeCount reviews) total } }

/-- Modelled from the spec: the external AI capability at the adapter
boundary (spec §4.2; the backend source is absent).  `none` stands for any
failure — capability absent, timeout, transport failure, malformed or empty
response — all of which the adapter treats alike. -/
structure AICapability where
  analyze : Int → String → Option GeneratedFields
  narrate : List Review → AnalyticsSnapshot → Option String

/-- A capability that always fails (also models an absent configuration,
spec §4.2: configuration absence is not an error and delegates to the
fallback exactly like a failure). -/
def failingCapability : AICapability :=
  { analyze := fun _ _ => none
    narrate := fun _ _ => none }

/-- Modelled from the spec: `generate_review_analysis(rating, review_text)`
of the AI capability adapter (spec §4.2; the backend source is absent).  A
single attempt; on any failure — including empty content — it silently falls
back to `generate_fallback` and never propagates the failure. -/
def generate_review_analysis (cap : AICapability) (rating : Int)
    (review_text : String) : GeneratedFields :=
  match cap.analyze rating review_text with
  | some g =>
      if g.user_response.isEmpty || g.ai_summary.isEmpty || g.recommended_actions.isEmpty then
        generate_fallback rating review_text
      else g
  | none => generate_fallback rating review_text

/-- Modelled from the spec: the templated stats-to-prose fallback narrative
for aggregate insights (spec §4.2/§4.5; the backend source is absent).
References the supplied statistics and covers insight, strengths,
weaknesses, recommendations. -/
def fallbackNarrative (stats : AnalyticsSnapshot) : String :=
  "Based on " ++ toString stats.total_reviews ++ " reviews with an average rating of "
    ++ toString stats.average_rating ++ " out of 5. Overall insight: "
    ++ toString stats.sentiment_analysis.positive_percentage
    ++ "% of reviews are positive and "
    ++ toString stats.sentiment_analysis.negative_percentage
    ++ "% are negative. Strengths: customers leaving 4-5 star reviews report a good experience. "
    ++ "Weaknesses: 1-2 star reviews point at areas needing attention. "
    ++ "Recommendations: follow up on low-rated reviews and reinforce what high-rated reviews praise."

/-- Modelled from the spec: `generate_insights(sample_reviews, stats)` of the
AI capability adapter (spec §4.2; the backend source is absent).  On any
failure or empty content it falls back to the templated narrative. -/
def generate_insights (cap : AICapability) (sample : List Review)
    (stats : AnalyticsSnapshot) : String :=
  match cap.narrate sample stats with
  | some s => if s.isEmpty then fallbackNarrative stats else s
  | none => fallbackNarrative stats

/-- Validation failures of the review processor (spec §7). -/
inductive ValidationError where
  | invalidRating (rating : Int)
  | textTooLong (length : Nat)
deriving DecidableEq

/-- Modelled from the spec: `submit_review(rating, review_text)`, the review
processor (spec §4.3; the backend source is absent).  Validates
`rating ∈ [1,5]` and `len(review_text) ≤ 5000` first, then enriches via the
adapter and assembles a fully-populated Review with the freshly assigned
`nextId` and `now` timestamp supplied by the persistence collaborator. -/
def submit_review (cap : AICapability) (nextId : Nat) (now : String)
    (rating : Int) (review_text : String) : Except ValidationError Review :=
  if rating < 1 ∨ 5 < rating then
    Except.error (ValidationError.invalidRating rating)
  else if 5000 < review_text.length then
    Except.error (ValidationError.textTooLong review_text.length)
  else
    let g := generate_review_analysis cap rating review_text
    Except.ok
      { id := nextId
        rating := rating
        review_text := review_text
        user_response := g.user_response
        ai_summary := g.ai_summary
        recommended_actions := g.recommended_actions
        created_at := now }

/-- The derived insights view (spec §3 `InsightsResult`, §6 AI-insights
endpoint shape; `AIInsights` interface of the insights panel component). -/
structure InsightsResult where
  insights : String
  total_reviews_analyzed : Nat
  average_rating : ℚ
deriving DecidableEq

/-- Insert a review into a list sorted by `le` (stable insertion sort step,
used to model the sample selection of spec §4.5). -/
def insertByRating (le : Review → Review → Bool) (a : Review) :
    List Review → List Review
  | [] => [a]
  | b :: bs => if le a b then a :: b :: bs else b :: insertByRating le a bs

/-- Stable insertion sort over reviews by `le` (spec §4.5 sample ordering). -/
def sortReviews (le : Review → Review → Bool) : List Review → List Review
  | [] => []
  | a :: as => insertByRating le a (sortReviews le as)

/-- Modelled from the spec: the bounded representative sample — up to 5 of
the highest-rated and up to 5 of the lowest-rated reviews (spec §4.5; the
backend source is absent). -/
def sampleReviews (reviews : List Review) : List Review :=
  (sortReviews (fun a b => b.rating ≤ a.rating) reviews).take 5
    ++ (sortReviews (fun a b => a.rating ≤ b.rating) reviews).take 5

/-- The fixed narrative returned when there are no reviews (spec §4.5). -/
def insufficientDataNarrative : String :=
  "Not enough data yet. Submit more reviews to unlock AI-powered insights."

/-- Modelled from the spec: `synthesize_insights(reviews)`, the insights
synthesizer (spec §4.5; the backend source is absent).  Empty input yields a
fixed insufficient-data narrative with zero counts, never consulting the
capability; otherwise stats are computed via `compute_analytics`, a bounded
sample is drawn, and the adapter produces the narrative. -/
def synthesize_insights (cap : AICapability) (reviews : List Review) :
    InsightsResult :=
  if reviews.isEmpty then
    { insights := insufficientDataNarrative
      total_reviews_analyzed := 0
      average_rating := 0 }
  else
    let stats := compute_analytics reviews
    { insights := generate_insights cap (sampleReviews reviews) stats
      total_reviews_analyzed := stats.total_reviews
      average_rating := stats.average_rating }

/-! Frontend logic, embedded from the TypeScript source. -/

/-- Field names of the `AIResponse` interface of the public submission page
(`frontend/pages/index.tsx`, lines 9–15): the shape of the public
submit-review response. -/
def aiResponseFields : List String :=
  ["id", "rating", "review_text", "user_response", "created_at"]

/-- Field names of the `Review` interface of the admin dashboard page
(admin page source, lines 12–20): the shape of each review in the admin
listing. -/
def adminReviewFields : List String :=
  ["id", "rating", "review_text", "user_response", "ai_summary",
   "recommended_actions", "created_at"]

/-- The star values the `StarRating` control can emit via `onRatingChange`
(`frontend/components/StarRating.tsx`, line 11: `[1, 2, 3, 4, 5].map`). -/
def starRatings : List Int := [1, 2, 3, 4, 5]

/-- A rating value the submission page state can hold: the initial / reset
value `0` (`useState<number>(0)` and `setRating(0)` after success), or a
value produced by the star control. -/
def ratingReachable (r : Int) : Prop := r = 0 ∨ r ∈ starRatings

instance : DecidablePred ratingReachable := fun r =>
  inferInstanceAs (Decidable (r = 0 ∨ r ∈ starRatings))

/-- Observable outcome of the submission handler: either an HTTP POST of
`\x7b rating, review_text \x7d` to `/api/reviews`, or an error message shown
with no request issued. -/
inductive SubmitAction where
  | request (rating : Int) (review_text : String)
  | showError (msg : String)
deriving DecidableEq

/-- The handler `handleSubmit` of the public submission page
(`frontend/pages/index.tsx`, lines 25–61): if the selected rating is `0` it
sets the error `Please select a rating` and returns before any request;
otherwise it POSTs the rating and review text. -/
def handleSubmit (rating : Int) (reviewText : String) : SubmitAction :=
  if rating = 0 then SubmitAction.showError "Please select a rating"
  else SubmitAction.request rating reviewText

/-- The derived list `filteredReviews` of the admin dashboard page (admin page source,
lines 81–83): `filterRating ? reviews.filter(r => r.rating === filterRating)
: reviews`.  JavaScript truthiness: `null` and `0` are falsy. -/
def filteredReviews (filterRating : Option Int) (reviews : List Review) :
    List Review :=
  match filterRating with
  | some k => if k = 0 then reviews else reviews.filter (fun r => r.rating == k)
  | none => reviews

/-! Helper lemmas. -/

/-- Appending to a non-empty string keeps it non-empty. -/
theorem append_ne_empty_left (s t : String) (h : s ≠ "") : s ++ t ≠ "" := by
  intro he
  apply h
  have hl : (s ++ t).length = 0 := by rw [he]; rfl
  rw [String.length_append] at hl
  have h0 : s.length = 0 := by omega
  exact String.ext (List.length_eq_zero.mp h0)

/-- Every field of the fallback generator output is a non-empty string
(spec §4.1). -/
theorem generate_fallback_ne_empty (rating : Int) (review_text : String) :
    (generate_fallback rating review_text).user_response ≠ "" ∧
    (generate_fallback rating review_text).ai_summary ≠ "" ∧
    (generate_fallback rating review_text).recommended_actions ≠ "" := by
  refine ⟨?_, ?_, ?_⟩
  · unfold generate_fallback fallbackUserResponse
    dsimp only
    split
    · decide
    split
    · decide
    split
    · decide
    split
    · decide
    · decide
  · unfold generate_fallback
    dsimp only
    exact append_ne_empty_left _ _ (append_ne_empty_left _ _ (append_ne_empty_left _ _
      (append_ne_empty_left _ _ (append_ne_empty_left _ _ (by decide)))))
  · unfold generate_fallback fallbackActions
    dsimp only
    split
    · decide
    split
    · decide
    · decide

/-- Every field of the adapter output is a non-empty string, for any
capability behavior (spec §4.2): a failing or empty result falls back. -/
theorem generate_review_analysis_ne_empty (cap : AICapability) (rating : Int)
    (review_text : String) :
    (generate_review_analysis cap rating review_text).user_response ≠ "" ∧
    (generate_review_analysis cap rating review_text).ai_summary ≠ "" ∧
    (generate_review_analysis cap rating review_text).recommended_actions ≠ "" := by
  unfold generate_review_analysis
  cases hc : cap.analyze rating review_text with
  | none => exact generate_fallback_ne_empty rating review_text
  | some g =>
    dsimp only
    split
    · exact generate_fallback_ne_empty rating review_text
    · rename_i hcond
      simp only [Bool.or_eq_true, String.isEmpty_iff, not_or] at hcond
      exact ⟨hcond.1.1, hcond.1.2, hcond.2⟩

/-- The templated fallback narrative is non-empty for any statistics. -/
theorem fallbackNarrative_ne_empty (stats : AnalyticsSnapshot) :
    fallbackNarrative stats ≠ "" := by
  unfold fallbackNarrative
  exact append_ne_empty_left _ _ (append_ne_empty_left _ _ (append_ne_empty_left _ _
    (append_ne_empty_left _ _ (append_ne_empty_left _ _ (append_ne_empty_left _ _
      (append_ne_empty_left _ _ (append_ne_empty_left _ _ (append_ne_empty_left _ _
        (append_ne_empty_left _ _ (by decide))))))))))

/-- The adapter narrative is non-empty for any capability behavior. -/
theorem generate_insights_ne_empty (cap : AICapability) (sample : List Review)
    (stats : AnalyticsSnapshot) : generate_insights cap sample stats ≠ "" := by
  unfold generate_insights
  cases cap.narrate sample stats with
  | none => exact fallbackNarrative_ne_empty stats
  | some s =>
    dsimp only
    split
    · exact fallbackNarrative_ne_empty stats
    · rename_i hs
      simpa [String.isEmpty_iff] using hs

/-- A review record with the given rating and placeholder text fields, used
as concrete input to the analytics theorems (only the rating matters). -/
def mkReview (rating : Int) : Review :=
  { id := 0
    rating := rating
    review_text := ""
    user_response := "r"
    ai_summary := "s"
    recommended_actions := "a"
    created_at := "t" }

/-- A capability that always succeeds with a fixed non-empty result, used to
contrast behaviors across capability configurations. -/
def succeedingCapability : AICapability :=
  { analyze := fun _ _ => some { user_response := "x", ai_summary := "y", recommended_actions := "z" }
    narrate := fun _ _ => some "w" }

/-! Claim theorems. -/

/-- C1: for every rating in 1..5 and review text of length at most 5000, and
for every behavior of the external AI capability (configured, absent, or
always failing), `submit_review` returns a Review whose `user_response`,
`ai_summary` and `recommended_actions` are all non-empty, with no AI-related
failure surfaced; and `synthesize_insights` returns a non-empty narrative
when the capability always fails. -/
theorem submit_review_always_enriched (cap : AICapability) (nextId : Nat)
    (now : String) (rating : Int) (review_text : String) (reviews : List Review)
    (h1 : 1 ≤ rating) (h2 : rating ≤ 5) (h3 : review_text.length ≤ 5000) :
    (∃ rev, submit_review cap nextId now rating review_text = Except.ok rev ∧
      rev.user_response ≠ "" ∧ rev.ai_summary ≠ "" ∧ rev.recommended_actions ≠ "") ∧
    (synthesize_insights failingCapability reviews).insights ≠ "" := by
  have hval : ¬(rating < 1 ∨ 5 < rating) := by omega
  have hlen : ¬(5000 < review_text.length) := by omega
  obtain ⟨hu, hs, ha⟩ := generate_review_analysis_ne_empty cap rating review_text
  constructor
  · have heq : submit_review cap nextId now rating review_text =
        Except.ok
          { id := nextId
            rating := rating
            review_text := review_text
            user_response := (generate_review_analysis cap rating review_text).user_response
            ai_summary := (generate_review_analysis cap rating review_text).ai_summary
            recommended_actions := (generate_review_analysis cap rating review_text).recommended_actions
            created_at := now } := by
      unfold submit_review
      rw [if_neg hval, if_neg hlen]
    exact ⟨_, heq, hu, hs, ha⟩
  · by_cases hr : reviews.isEmpty
    · unfold synthesize_insights
      rw [if_pos hr]
      decide
    · unfold synthesize_insights
      rw [if_neg hr]
      show generate_insights failingCapability (sampleReviews reviews)
        (compute_analytics reviews) ≠ ""
      exact generate_insights_ne_empty _ _ _

/-- Witness for C1 at rating 5, a short text, a failing capability, and a
one-review collection. -/
theorem submit_review_always_enriched_witness :
    (∃ rev, submit_review failingCapability 1 "2026-01-01T00:00:00" 5 "Great service!"
        = Except.ok rev ∧
      rev.user_response ≠ "" ∧ rev.ai_summary ≠ "" ∧ rev.recommended_actions ≠ "") ∧
    (synthesize_insights failingCapability [mkReview 5]).insights ≠ "" :=
  submit_review_always_enriched failingCapability 1 "2026-01-01T00:00:00" 5
    "Great service!" [mkReview 5] (by decide) (by decide) (by decide)

/-- C2: for every rating outside 1..5 or review text longer than 5000
characters, `submit_review` fails with a ValidationError and produces no
Review; the result does not depend on the AI capability, so no generation is
attempted. -/
theorem submit_review_rejects_invalid (cap cap2 : AICapability) (nextId : Nat)
    (now : String) (rating : Int) (review_text : String)
    (h : rating < 1 ∨ 5 < rating ∨ 5000 < review_text.length) :
    (∃ e, submit_review cap nextId now rating review_text = Except.error e) ∧
    submit_review cap nextId now rating review_text
      = submit_review cap2 nextId now rating review_text := by
  unfold submit_review
  by_cases hr : rating < 1 ∨ 5 < rating
  · rw [if_pos hr, if_pos hr]
    exact ⟨⟨_, rfl⟩, rfl⟩
  · have hlen : 5000 < review_text.length := by
      rcases h with h1 | h2 | h3
      · exact absurd (Or.inl h1) hr
      · exact absurd (Or.inr h2) hr
      · exact h3
    rw [if_neg hr, if_pos hlen, if_neg hr, if_pos hlen]
    exact ⟨⟨_, rfl⟩, rfl⟩

/-- Witness for C2 at the out-of-range rating 0, comparing a failing and a
succeeding capability. -/
theorem submit_review_rejects_invalid_witness :
    (∃ e, submit_review failingCapability 1 "t" 0 "" = Except.error e) ∧
    submit_review failingCapability 1 "t" 0 ""
      = submit_review succeedingCapability 1 "t" 0 "" :=
  submit_review_rejects_invalid failingCapability succeedingCapability 1 "t" 0 ""
    (by decide)

/-- C3: `compute_analytics` on the empty collection returns zero totals, a
zero average, a zero-filled histogram and all-zero sentiment counts and
percentages, with no division error (the `total = 0` guards apply). -/
theorem compute_analytics_empty :
    compute_analytics [] =
      { total_reviews := 0
        average_rating := 0
        rating_distribution :=
          { rating_1 := 0, rating_2 := 0, rating_3 := 0, rating_4 := 0, rating_5 := 0 }
        sentiment_analysis :=
          { positive := 0, positive_percentage := 0, neutral := 0,
            neutral_percentage := 0, negative := 0, negative_percentage := 0 } } := by
  decide

/-- C4: `compute_analytics` on reviews with ratings [5, 5, 4, 3, 1] returns
total 5, average 3.6, histogram 1/0/1/1/2, and sentiment counts 1 negative
(20%), 1 neutral (20%), 3 positive (60%). -/
theorem compute_analytics_fixed_set :
    compute_analytics ([5, 5, 4, 3, 1].map mkReview) =
      { total_reviews := 5
        average_rating := 3.6
        rating_distribution :=
          { rating_1 := 1, rating_2 := 0, rating_3 := 1, rating_4 := 1, rating_5 := 2 }
        sentiment_analysis :=
          { positive := 3, positive_percentage := 60, neutral := 1,
            neutral_percentage := 20, negative := 1, negative_percentage := 20 } } := by
  simp [compute_analytics, countRating, negativeCount, neutralCount, positiveCount,
    sentimentPct, sumRatings, mkReview, roundRat, List.filter]
  norm_num

/-- C5: for every non-empty review collection each sentiment percentage
equals `round(bucket_count / total * 100)` computed independently per
bucket, and for some input (ratings [1, 3, 5]) the three percentages sum to
99, not 100. -/
theorem sentiment_percentages_independent (reviews : List Review)
    (h : reviews ≠ []) :
    ((compute_analytics reviews).sentiment_analysis.negative_percentage
        = roundRat ((negativeCount reviews : ℚ) / (reviews.length : ℚ) * 100) ∧
      (compute_analytics reviews).sentiment_analysis.neutral_percentage
        = roundRat ((neutralCount reviews : ℚ) / (reviews.length : ℚ) * 100) ∧
      (compute_analytics reviews).sentiment_analysis.positive_percentage
        = roundRat ((positiveCount reviews : ℚ) / (reviews.length : ℚ) * 100)) ∧
    (∃ ex : List Review, ex ≠ [] ∧
      (compute_analytics ex).sentiment_analysis.negative_percentage
          + (compute_analytics ex).sentiment_analysis.neutral_percentage
          + (compute_analytics ex).sentiment_analysis.positive_percentage ≠ 100) := by
  have hlen : reviews.length ≠ 0 := fun h0 => h (List.length_eq_zero.mp h0)
  constructor
  · refine ⟨?_, ?_, ?_⟩ <;>
      · simp only [compute_analytics, sentimentPct, if_neg hlen]
        congr 1
        ring
  · refine ⟨[1, 3, 5].map mkReview, by decide, ?_⟩
    have hx : compute_analytics ([1, 3, 5].map mkReview) =
        { total_reviews := 3
          average_rating := 3
          rating_distribution :=
            { rating_1 := 1, rating_2 := 0, rating_3 := 1, rating_4 := 0, rating_5 := 1 }
          sentiment_analysis :=
            { positive := 1, positive_percentage := 33, neutral := 1,
              neutral_percentage := 33, negative := 1, negative_percentage := 33 } } := by
      simp [compute_analytics, countRating, negativeCount, neutralCount, positiveCount,
        sentimentPct, sumRatings, mkReview, roundRat, List.filter]
      norm_num
    rw [hx]
    decide

/-- Witness for C5 at the one-review collection with rating 1: the negative
percentage is 100 and the others 0. -/
theorem sentiment_percentages_independent_witness :
    (((compute_analytics [mkReview 1]).sentiment_analysis.negative_percentage
        = roundRat ((negativeCount [mkReview 1] : ℚ) / (([mkReview 1] : List Review).length : ℚ) * 100) ∧
      (compute_analytics [mkReview 1]).sentiment_analysis.neutral_percentage
        = roundRat ((neutralCount [mkReview 1] : ℚ) / (([mkReview 1] : List Review).length : ℚ) * 100) ∧
      (compute_analytics [mkReview 1]).sentiment_analysis.positive_percentage
        = roundRat ((positiveCount [mkReview 1] : ℚ) / (([mkReview 1] : List Review).length : ℚ) * 100)) ∧
    (∃ ex : List Review, ex ≠ [] ∧
      (compute_analytics ex).sentiment_analysis.negative_percentage
          + (compute_analytics ex).sentiment_analysis.neutral_percentage
          + (compute_analytics ex).sentiment_analysis.positive_percentage ≠ 100)) :=
  sentiment_percentages_independent [mkReview 1] (by decide)

/-- C6: `synthesize_insights` on the empty collection returns zero reviews
analyzed and the fixed insufficient-data narrative, for every capability —
so the external capability is never consulted. -/
theorem synthesize_insights_empty (cap : AICapability) :
    synthesize_insights cap [] =
      { insights := insufficientDataNarrative
        total_reviews_analyzed := 0
        average_rating := 0 } ∧
    insufficientDataNarrative
      = "Not enough data yet. Submit more reviews to unlock AI-powered insights." :=
  ⟨rfl, rfl⟩

/-- Witness for C6 at a capability that always succeeds: even then the empty
collection yields the fixed narrative, so the capability is never consulted. -/
theorem synthesize_insights_empty_witness :
    synthesize_insights succeedingCapability [] =
      { insights := insufficientDataNarrative
        total_reviews_analyzed := 0
        average_rating := 0 } ∧
    insufficientDataNarrative
      = "Not enough data yet. Submit more reviews to unlock AI-powered insights." :=
  synthesize_insights_empty succeedingCapability

/-- C7: the fallback generator is a deterministic pure function — equal
`(rating, review_text)` inputs yield identical output fields — and it is
defined with non-empty output fields for every rating 1..5 and any text
within the accepted length bound. -/
theorem generate_fallback_deterministic (rating rating2 : Int)
    (text text2 : String) (h1 : 1 ≤ rating) (h2 : rating ≤ 5)
    (h3 : text.length ≤ 5000) (hr : rating = rating2) (ht : text = text2) :
    generate_fallback rating text = generate_fallback rating2 text2 ∧
    (generate_fallback rating text).user_response ≠ "" ∧
    (generate_fallback rating text).ai_summary ≠ "" ∧
    (generate_fallback rating text).recommended_actions ≠ "" := by
  subst hr
  subst ht
  exact ⟨rfl, generate_fallback_ne_empty rating text⟩

/-- Witness for C7 at rating 5 with a short text. -/
theorem generate_fallback_deterministic_witness :
    generate_fallback 5 "Great" = generate_fallback 5 "Great" ∧
    (generate_fallback 5 "Great").user_response ≠ "" ∧
    (generate_fallback 5 "Great").ai_summary ≠ "" ∧
    (generate_fallback 5 "Great").recommended_actions ≠ "" :=
  generate_fallback_deterministic 5 5 "Great" "Great" (by decide) (by decide)
    (by decide) rfl rfl

/-- C8: the public submit-review response carries exactly the fields
id, rating, review_text, user_response and created_at — `ai_summary` and
`recommended_actions` are withheld — while the admin review listing carries
all AI-generated fields. -/
theorem public_response_withholds_ai_fields :
    aiResponseFields = ["id", "rating", "review_text", "user_response", "created_at"] ∧
    "ai_summary" ∉ aiResponseFields ∧
    "recommended_actions" ∉ aiResponseFields ∧
    "user_response" ∈ adminReviewFields ∧
    "ai_summary" ∈ adminReviewFields ∧
    "recommended_actions" ∈ adminReviewFields ∧
    aiResponseFields ⊆ adminReviewFields := by
  refine ⟨rfl, by decide, by decide, by decide, by decide, by decide, ?_⟩
  intro x hx
  fin_cases hx <;> decide

/-- C9: the submission page never issues a review request with a rating
outside 1..5 — the star control only emits 1..5, and `handleSubmit` shows
the error message and issues no request when the selected rating is 0. -/
theorem submission_rating_guard (r r2 : Int) (text t2 : String)
    (hr : ratingReachable r)
    (hreq : handleSubmit r text = SubmitAction.request r2 t2) :
    handleSubmit 0 text = SubmitAction.showError "Please select a rating" ∧
    1 ≤ r2 ∧ r2 ≤ 5 := by
  refine ⟨rfl, ?_⟩
  unfold handleSubmit at hreq
  by_cases h0 : r = 0
  · rw [if_pos h0] at hreq
    exact absurd hreq (by simp)
  · rw [if_neg h0] at hreq
    injection hreq with ha hb
    subst ha
    rcases hr with h | h
    · exact absurd h h0
    · simp only [starRatings, List.mem_cons, List.not_mem_nil, or_false] at h
      rcases h with h | h | h | h | h <;> omega

/-- Witness for C9: rating 0 shows the error, and the reachable rating 3
yields a request with rating 3 in 1..5. -/
theorem submission_rating_guard_witness :
    handleSubmit 0 "x" = SubmitAction.showError "Please select a rating" ∧
    (1 : Int) ≤ 3 ∧ (3 : Int) ≤ 5 :=
  submission_rating_guard 3 3 "x" "x" (by decide) rfl

/-- C10: selecting a rating filter in 1..5 on the admin dashboard yields
exactly the fetched reviews with that rating, in their original order, and
selecting no filter yields the entire fetched list unchanged. -/
theorem filteredReviews_exact (k : Int) (reviews : List Review)
    (h1 : 1 ≤ k) (h2 : k ≤ 5) :
    filteredReviews (some k) reviews = reviews.filter (fun r => r.rating == k) ∧
    List.Sublist (filteredReviews (some k) reviews) reviews ∧
    (∀ x, x ∈ filteredReviews (some k) reviews ↔ x ∈ reviews ∧ x.rating = k) ∧
    filteredReviews none reviews = reviews := by
  have hk : ¬(k = 0) := by omega
  have hfe : filteredReviews (some k) reviews
      = reviews.filter (fun r => r.rating == k) := by
    simp [filteredReviews, hk]
  refine ⟨hfe, ?_, ?_, rfl⟩
  · rw [hfe]
    exact List.filter_sublist _
  · intro x
    rw [hfe, List.mem_filter]
    simp [beq_iff_eq]

/-- Witness for C10 at filter rating 3 on a two-review list. -/
theorem filteredReviews_exact_witness :
    filteredReviews (some 3) [mkReview 3, mkReview 5]
        = List.filter (fun r => r.rating == 3) [mkReview 3, mkReview 5] ∧
    List.Sublist (filteredReviews (some 3) [mkReview 3, mkReview 5])
      [mkReview 3, mkReview 5] ∧
    (∀ x, x ∈ filteredReviews (some 3) [mkReview 3, mkReview 5]
      ↔ x ∈ [mkReview 3, mkReview 5] ∧ x.rating = 3) ∧
    filteredReviews none [mkReview 3, mkReview 5] = [mkReview 3, mkReview 5] :=
  filteredReviews_exact 3 [mkReview 3, mkReview 5] (by decide) (by decide)

end Feedback
